import Mathlib

/-!
Shallow embedding of the quality evaluation engine of the
storyland-post-creator repository (`src/evaluation.py`).

Scores are modelled as exact rationals (the Python code only ever
subtracts integer constants from `100.0`, so its float arithmetic is
exact at the granularity the scores live at).  Python strings are
modelled as `List Char`; the HTML parse performed by BeautifulSoup and
the textstat readability metrics are external collaborators, so their
outputs (element counts, paragraph texts, plain-text extraction,
readability numbers) are carried as fields of the evaluator input,
while everything `evaluation.py` itself computes is translated
faithfully below.
-/

/-- Python `str.lower()` restricted to the ASCII range used here. -/
def toLowerL (s : List Char) : List Char := s.map Char.toLower

/-- Python `str.split()` with no separator: split on whitespace runs,
dropping empty chunks. -/
def pyWords (s : List Char) : List (List Char) :=
  (s.splitOnP (fun c => c.isWhitespace)).filter (fun w => !w.isEmpty)

/-- Python `str.strip()`: remove leading and trailing whitespace. -/
def pyStrip (s : List Char) : List Char :=
  ((s.dropWhile Char.isWhitespace).reverse.dropWhile Char.isWhitespace).reverse

/-- A regex `\w` character (ASCII approximation). -/
def isWordChar (c : Char) : Bool := c.isAlphanum || c == '_'

/-- Python `re.findall(r'\w+', s)`: maximal runs of word characters. -/
def reWords (s : List Char) : List (List Char) :=
  (s.splitOnP (fun c => !isWordChar c)).filter (fun w => !w.isEmpty)

/-- Python `round(x, 2)`.  All scores produced by the evaluators are
integer multiples of 1/4 (resp. 1/20), so `x * 100` is an integer and
the tie-breaking convention of `round` is never exercised. -/
def round2 (q : ℚ) : ℚ := ((round (q * 100) : ℤ) : ℚ) / 100

/-- `needle` is a leading segment of `haystack`. -/
def startsWith : List Char → List Char → Bool
  | [], _ => true
  | _ :: _, [] => false
  | a :: as, b :: bs => a == b && startsWith as bs

/-- Python `needle in haystack` for strings: contiguous substring test. -/
def isSubstr (needle : List Char) : List Char → Bool
  | [] => needle.isEmpty
  | c :: rest => startsWith needle (c :: rest) || isSubstr needle rest

namespace ContentEvaluator

/-- The three textstat metrics computed inside the guarded block of
`_evaluate_readability` (lines 123-152 of `src/evaluation.py`). -/
structure Readability where
  reading_ease : ℚ
  grade_level : ℚ
  avg_sentence_length : ℚ
deriving DecidableEq

/-- Input of `evaluate_content`: the three raw strings together with
the BeautifulSoup parse of `content` (element counts, paragraph texts
and plain-text extraction) and the textstat metrics, `none` meaning
the textstat computation raised. -/
structure ContentInput where
  title : List Char
  content : List Char
  tags : List Char
  h2Count : ℕ
  h3Count : ℕ
  paragraphs : List (List Char)
  listCount : ℕ
  emphasisCount : ℕ
  text : List Char
  readability : Option Readability

/-- The distinct strings appended to `issues`, abstracted as tags
carrying the interpolated numbers. -/
inductive Issue where
  | difficultToRead (ease : ℚ)
  | collegeLevel (gradeLevel : ℚ)
  | tooSimplistic
  | couldNotAssess
  | fewH2 (n : ℕ)
  | tooManyH2
  | fewParagraphs
  | containsH1
  | titleTooShort (n : ℕ)
  | titleTooLong (n : ℕ)
  | fewTags (n : ℕ)
  | tooManyTags
  | contentTooShort (n : ℕ)
  | keywordsMissing
  | shortIntro
  | lacksDepth
  | placeholderText
  | criticallyShort
deriving DecidableEq

/-- The distinct strings appended to `recommendations`. -/
inductive Advice where
  | shorterSentences
  | simplerLanguage
  | simplifyComplex
  | breakUpLong
  | addH2
  | addH3
  | moreParagraphs
  | useLists
  | addEmphasis
  | expandTitle
  | longerTitle
  | shortenTitle
  | addTags
  | reduceTags
  | expandContent
  | considerSeries
  | useKeywords
  | expandIntro
  | addConclusion
  | expandSections
deriving DecidableEq

/-- `word_count = len(text.split())` (line 76). -/
def wordCount (i : ContentInput) : ℕ := (pyWords i.text).length

/-- `_evaluate_readability`, running score before the final `max(0, score)`.
`none` is the `except` branch, which forces the score to 75. -/
def evaluate_readability_raw (m : Option Readability) : ℚ :=
  match m with
  | none => 75
  | some r =>
    100 - (if r.reading_ease < 50 then 20
           else if r.reading_ease < 60 then 10 else 0)
        - (if 12 < r.grade_level then 15
           else if r.grade_level < 6 then 5 else 0)
        - (if 25 < r.avg_sentence_length then 10 else 0)

/-- `_evaluate_readability` return value (line 158). -/
def evaluate_readability_score (m : Option Readability) : ℚ :=
  max 0 (evaluate_readability_raw m)

/-- Issues appended by `_evaluate_readability`, in program order. -/
def evaluate_readability_issues (m : Option Readability) : List Issue :=
  match m with
  | none => [Issue.couldNotAssess]
  | some r =>
    (if r.reading_ease < 50 then [Issue.difficultToRead r.reading_ease] else []) ++
    (if 12 < r.grade_level then [Issue.collegeLevel r.grade_level]
     else if r.grade_level < 6 then [Issue.tooSimplistic] else [])

/-- Recommendations appended by `_evaluate_readability`, in program order. -/
def evaluate_readability_recs (m : Option Readability) : List Advice :=
  match m with
  | none => []
  | some r =>
    (if r.reading_ease < 50 then [Advice.shorterSentences]
     else if r.reading_ease < 60 then [Advice.simplerLanguage] else []) ++
    (if 12 < r.grade_level then [Advice.simplifyComplex] else []) ++
    (if 25 < r.avg_sentence_length then [Advice.breakUpLong] else [])

/-- `'<h1>' in content.lower()` (line 200): a literal substring test. -/
def containsH1 (content : List Char) : Bool :=
  isSubstr ("<h1>".toList) (toLowerL content)

/-- `_evaluate_structure`, running score before the final `max(0, score)`. -/
def evaluate_structure_raw (i : ContentInput) : ℚ :=
  100 - (if i.h2Count < 3 then 25 else if 8 < i.h2Count then 10 else 0)
      - (if i.h3Count = 0 then 10 else 0)
      - (if i.paragraphs.length < 5 then 20 else 0)
      - (if i.listCount = 0 then 10 else 0)
      - (if containsH1 i.content = true then 15 else 0)
      - (if i.emphasisCount = 0 then 5 else 0)

/-- `_evaluate_structure` return value (line 210). -/
def evaluate_structure_score (i : ContentInput) : ℚ :=
  max 0 (evaluate_structure_raw i)

/-- Issues appended by `_evaluate_structure`, in program order. -/
def evaluate_structure_issues (i : ContentInput) : List Issue :=
  (if i.h2Count < 3 then [Issue.fewH2 i.h2Count]
   else if 8 < i.h2Count then [Issue.tooManyH2] else []) ++
  (if i.paragraphs.length < 5 then [Issue.fewParagraphs] else []) ++
  (if containsH1 i.content = true then [Issue.containsH1] else [])

/-- Recommendations appended by `_evaluate_structure`, in program order. -/
def evaluate_structure_recs (i : ContentInput) : List Advice :=
  (if i.h2Count < 3 then [Advice.addH2] else []) ++
  (if i.h3Count = 0 then [Advice.addH3] else []) ++
  (if i.paragraphs.length < 5 then [Advice.moreParagraphs] else []) ++
  (if i.listCount = 0 then [Advice.useLists] else []) ++
  (if i.emphasisCount = 0 then [Advice.addEmphasis] else [])

/-- `[t.strip() for t in tags.split(',') if t.strip()]` (line 239). -/
def tagList (tags : List Char) : List (List Char) :=
  ((List.splitOn ',' tags).map pyStrip).filter (fun t => !t.isEmpty)

/-- `sum(1 for word in title_words if len(word) > 4 and word in content_lower)`
where `title_words = set(re.findall(r'\w+', title.lower()))` (lines 259-261). -/
def keywordAppearances (title content : List Char) : ℕ :=
  ((reWords (toLowerL title)).dedup).countP
    (fun w => decide (4 < w.length) && isSubstr w (toLowerL content))

/-- `_evaluate_seo`, running score before the final `max(0, score)`. -/
def evaluate_seo_raw (i : ContentInput) : ℚ :=
  100 - (if i.title.length < 30 then 20
         else if i.title.length < 50 then 10
         else if 70 < i.title.length then 15 else 0)
      - (if (tagList i.tags).length < 3 then 15
         else if 7 < (tagList i.tags).length then 10 else 0)
      - (if wordCount i < 800 then 25
         else if 2000 < wordCount i then 5 else 0)
      - (if keywordAppearances i.title i.content < 2 then 20 else 0)

/-- `_evaluate_seo` return value (line 268). -/
def evaluate_seo_score (i : ContentInput) : ℚ :=
  max 0 (evaluate_seo_raw i)

/-- Issues appended by `_evaluate_seo`, in program order. -/
def evaluate_seo_issues (i : ContentInput) : List Issue :=
  (if i.title.length < 30 then [Issue.titleTooShort i.title.length]
   else if i.title.length < 50 then []
   else if 70 < i.title.length then [Issue.titleTooLong i.title.length] else []) ++
  (if (tagList i.tags).length < 3 then [Issue.fewTags (tagList i.tags).length]
   else if 7 < (tagList i.tags).length then [Issue.tooManyTags] else []) ++
  (if wordCount i < 800 then [Issue.contentTooShort (wordCount i)] else []) ++
  (if keywordAppearances i.title i.content < 2 then [Issue.keywordsMissing] else [])

/-- Recommendations appended by `_evaluate_seo`, in program order. -/
def evaluate_seo_recs (i : ContentInput) : List Advice :=
  (if i.title.length < 30 then [Advice.expandTitle]
   else if i.title.length < 50 then [Advice.longerTitle]
   else if 70 < i.title.length then [Advice.shortenTitle] else []) ++
  (if (tagList i.tags).length < 3 then [Advice.addTags]
   else if 7 < (tagList i.tags).length then [Advice.reduceTags] else []) ++
  (if wordCount i < 800 then [Advice.expandContent]
   else if 2000 < wordCount i then [Advice.considerSeries] else []) ++
  (if keywordAppearances i.title i.content < 2 then [Advice.useKeywords] else [])

/-- The conclusion marker phrases of `_evaluate_completeness` (line 295). -/
def conclusionMarkers : List (List Char) :=
  ["conclusion".toList, "summary".toList, "in closing".toList,
   "to wrap up".toList, "finally".toList]

/-- `any(word in last_para.lower() for word in conclusion_words)` (line 296). -/
def hasConclusion (lastPara : List Char) : Bool :=
  conclusionMarkers.any (fun w => isSubstr w (toLowerL lastPara))

/-- The placeholder markers of `_evaluate_completeness` (line 314). -/
def placeholderMarkers : List (List Char) :=
  ["lorem ipsum".toList, "placeholder".toList, "todo".toList,
   "tbd".toList, "xxx".toList]

/-- `any(word in content.lower() for word in placeholder_words)` (line 315). -/
def hasPlaceholder (content : List Char) : Bool :=
  placeholderMarkers.any (fun w => isSubstr w (toLowerL content))

/-- `_evaluate_completeness`, running score before the final `max(0, score)`.
`p_tags[0]` and `p_tags[-1]` are guarded by `if p_tags:` in the source. -/
def evaluate_completeness_raw (i : ContentInput) : ℚ :=
  100 - (if i.paragraphs.isEmpty = true then 0
         else if (pyWords (i.paragraphs.headD [])).length < 30 then 15 else 0)
      - (if i.paragraphs.isEmpty = true then 0
         else if hasConclusion (i.paragraphs.getLastD []) = false ∧
                 (pyWords (i.paragraphs.getLastD [])).length < 30 then 10 else 0)
      - (if 0 < i.h2Count then
           (if (i.paragraphs.length : ℚ) / (i.h2Count : ℚ) < 2 then 20 else 0)
         else 0)
      - (if hasPlaceholder i.content = true then 30 else 0)
      - (if wordCount i < 500 then 40 else 0)

/-- `_evaluate_completeness` return value (line 324). -/
def evaluate_completeness_score (i : ContentInput) : ℚ :=
  max 0 (evaluate_completeness_raw i)

/-- Issues appended by `_evaluate_completeness`, in program order. -/
def evaluate_completeness_issues (i : ContentInput) : List Issue :=
  (if i.paragraphs.isEmpty = true then []
   else if (pyWords (i.paragraphs.headD [])).length < 30 then [Issue.shortIntro] else []) ++
  (if 0 < i.h2Count then
     (if (i.paragraphs.length : ℚ) / (i.h2Count : ℚ) < 2 then [Issue.lacksDepth] else [])
   else []) ++
  (if hasPlaceholder i.content = true then [Issue.placeholderText] else []) ++
  (if wordCount i < 500 then [Issue.criticallyShort] else [])

/-- Recommendations appended by `_evaluate_completeness`, in program order. -/
def evaluate_completeness_recs (i : ContentInput) : List Advice :=
  (if i.paragraphs.isEmpty = true then []
   else if (pyWords (i.paragraphs.headD [])).length < 30 then [Advice.expandIntro] else []) ++
  (if i.paragraphs.isEmpty = true then []
   else if hasConclusion (i.paragraphs.getLastD []) = false ∧
           (pyWords (i.paragraphs.getLastD [])).length < 30 then [Advice.addConclusion] else []) ++
  (if 0 < i.h2Count then
     (if (i.paragraphs.length : ℚ) / (i.h2Count : ℚ) < 2 then [Advice.expandSections] else [])
   else [])

/-- `_score_to_grade` of `ContentEvaluator` (lines 326-337). -/
def score_to_grade (s : ℚ) : String :=
  if 90 ≤ s then "A"
  else if 80 ≤ s then "B"
  else if 70 ≤ s then "C"
  else if 60 ≤ s then "D"
  else "F"

/-- The record returned by `evaluate_content`. -/
structure ContentQualityScore where
  readability_score : ℚ
  structure_score : ℚ
  seo_score : ℚ
  completeness_score : ℚ
  overall_score : ℚ
  grade : String
  issues : List Issue
  recommendations : List Advice

/-- `evaluate_content` (lines 53-112).  The grade is computed on the
unrounded overall score; the stored fields are rounded to 2 decimals. -/
def evaluate_content (i : ContentInput) : ContentQualityScore :=
  let readability_score := evaluate_readability_score i.readability
  let structure_score := evaluate_structure_score i
  let seo_score := evaluate_seo_score i
  let completeness_score := evaluate_completeness_score i
  let overall_score := readability_score * 0.25 + structure_score * 0.25 +
                       seo_score * 0.25 + completeness_score * 0.25
  ContentQualityScore.mk
    (round2 readability_score) (round2 structure_score) (round2 seo_score)
    (round2 completeness_score) (round2 overall_score)
    (score_to_grade overall_score)
    (evaluate_readability_issues i.readability ++ evaluate_structure_issues i ++
     evaluate_seo_issues i ++ evaluate_completeness_issues i)
    (evaluate_readability_recs i.readability ++ evaluate_structure_recs i ++
     evaluate_seo_recs i ++ evaluate_completeness_recs i)

end ContentEvaluator

namespace AgentEvaluator

/-- The fields of a per-agent metrics record that
`evaluate_agent_performance` reads: `tool_calls` and `errors`. -/
structure AgentMetrics where
  tool_calls : ℕ
  errors : List String
deriving DecidableEq

/-- The fields of a per-task metrics record that
`evaluate_agent_performance` reads: `status`, `duration`, `output_length`. -/
structure TaskMetrics where
  status : String
  duration : ℚ
  output_length : ℕ
deriving DecidableEq

/-- The distinct strings appended to `strengths`. -/
inductive Strength where
  | veryFast (d : ℚ)
  | zeroErrors
  | allCompleted
  | substantialOutputs (n : ℕ)
deriving DecidableEq

/-- The distinct strings appended to `weaknesses`. -/
inductive Weakness where
  | slowExecution (d : ℚ)
  | aboveTarget
  | highToolUsage (n : ℕ)
  | fewToolCalls
  | slowTaskCount (n : ℕ)
  | errorsOccurred (n : ℕ)
  | tasksFailed (n : ℕ)
  | inconsistentTimes
  | shortOutput (n : ℕ)
deriving DecidableEq

/-- `sum(metrics.get('tool_calls', 0) for metrics in agent_metrics.values())`
(lines 423-426). -/
def totalToolCalls (agents : List AgentMetrics) : ℕ :=
  (agents.map (fun a => a.tool_calls)).sum

/-- `[t for t in task_metrics if t.get('duration', 0) > 30]` (line 436). -/
def slowTasks (tasks : List TaskMetrics) : List TaskMetrics :=
  tasks.filter (fun t => decide (30 < t.duration))

/-- `_evaluate_efficiency`, running score before the final `max(0, score)`. -/
def evaluate_efficiency_raw (agents : List AgentMetrics) (tasks : List TaskMetrics)
    (total_duration : ℚ) : ℚ :=
  100 - (if total_duration < 30 then 0
         else if 90 < total_duration then 25
         else if 60 < total_duration then 15 else 0)
      - (if 10 < totalToolCalls agents then 15
         else if totalToolCalls agents < 3 then 10 else 0)
      - (if 0 < (slowTasks tasks).length then 10 * ((slowTasks tasks).length : ℚ) else 0)

/-- `_evaluate_efficiency` return value (line 441). -/
def evaluate_efficiency_score (agents : List AgentMetrics) (tasks : List TaskMetrics)
    (total_duration : ℚ) : ℚ :=
  max 0 (evaluate_efficiency_raw agents tasks total_duration)

/-- Strengths appended by `_evaluate_efficiency`. -/
def evaluate_efficiency_strengths (total_duration : ℚ) : List Strength :=
  if total_duration < 30 then [Strength.veryFast total_duration] else []

/-- Weaknesses appended by `_evaluate_efficiency`, in program order. -/
def evaluate_efficiency_weaknesses (agents : List AgentMetrics) (tasks : List TaskMetrics)
    (total_duration : ℚ) : List Weakness :=
  (if total_duration < 30 then []
   else if 90 < total_duration then [Weakness.slowExecution total_duration]
   else if 60 < total_duration then [Weakness.aboveTarget] else []) ++
  (if 10 < totalToolCalls agents then [Weakness.highToolUsage (totalToolCalls agents)]
   else if totalToolCalls agents < 3 then [Weakness.fewToolCalls] else []) ++
  (if 0 < (slowTasks tasks).length then [Weakness.slowTaskCount (slowTasks tasks).length] else [])

/-- `sum(len(metrics.get('errors', [])) for metrics in agent_metrics.values())`
(lines 454-457). -/
def totalErrors (agents : List AgentMetrics) : ℕ :=
  (agents.map (fun a => a.errors.length)).sum

/-- `[t for t in task_metrics if t.get('status') != 'completed']` (line 466). -/
def failedTasks (tasks : List TaskMetrics) : List TaskMetrics :=
  tasks.filter (fun t => decide (t.status ≠ "completed"))

/-- `[t.get('duration', 0) for t in task_metrics if t.get('duration', 0) > 0]`
(line 474). -/
def durationsPos (tasks : List TaskMetrics) : List ℚ :=
  (tasks.filter (fun t => decide (0 < t.duration))).map (fun t => t.duration)

/-- `variance = sum((d - avg_duration) ** 2 for d in durations) / len(durations)`
with `avg_duration = sum(durations) / len(durations)` (lines 476-477). -/
def durationVariance (ds : List ℚ) : ℚ :=
  (ds.map (fun d => (d - ds.sum / (ds.length : ℚ)) ^ 2)).sum / (ds.length : ℚ)

/-- `_evaluate_reliability`, running score before the final `max(0, score)`. -/
def evaluate_reliability_raw (agents : List AgentMetrics) (tasks : List TaskMetrics) : ℚ :=
  100 - (if totalErrors agents = 0 then 0 else 20 * (totalErrors agents : ℚ))
      - (if 0 < (failedTasks tasks).length
         then 30 * ((failedTasks tasks).length : ℚ) else 0)
      - (if 0 < (durationsPos tasks).length then
           (if 100 < durationVariance (durationsPos tasks) then 10 else 0)
         else 0)

/-- `_evaluate_reliability` return value (line 483). -/
def evaluate_reliability_score (agents : List AgentMetrics) (tasks : List TaskMetrics) : ℚ :=
  max 0 (evaluate_reliability_raw agents tasks)

/-- Strengths appended by `_evaluate_reliability`, in program order. -/
def evaluate_reliability_strengths (agents : List AgentMetrics)
    (tasks : List TaskMetrics) : List Strength :=
  (if totalErrors agents = 0 then [Strength.zeroErrors] else []) ++
  (if 0 < (failedTasks tasks).length then [] else [Strength.allCompleted])

/-- Weaknesses appended by `_evaluate_reliability`, in program order. -/
def evaluate_reliability_weaknesses (agents : List AgentMetrics)
    (tasks : List TaskMetrics) : List Weakness :=
  (if totalErrors agents = 0 then [] else [Weakness.errorsOccurred (totalErrors agents)]) ++
  (if 0 < (failedTasks tasks).length
   then [Weakness.tasksFailed (failedTasks tasks).length] else []) ++
  (if 0 < (durationsPos tasks).length then
     (if 100 < durationVariance (durationsPos tasks) then [Weakness.inconsistentTimes] else [])
   else [])

/-- Tasks with `0 < output_length < 50` (lines 495-501). -/
def shortOutputTasks (tasks : List TaskMetrics) : List TaskMetrics :=
  tasks.filter (fun t => decide (0 < t.output_length ∧ t.output_length < 50))

/-- `[t for t in task_metrics if t.get('output_length', 0) > 500]` (line 504). -/
def substantialTasks (tasks : List TaskMetrics) : List TaskMetrics :=
  tasks.filter (fun t => decide (500 < t.output_length))

/-- `_evaluate_quality`, running score before the final `max(0, score)`:
a loop over the tasks subtracting 15 per very short output. -/
def evaluate_quality_raw (tasks : List TaskMetrics) : ℚ :=
  tasks.foldl
    (fun s t => if 0 < t.output_length ∧ t.output_length < 50 then s - 15 else s)
    100

/-- `_evaluate_quality` return value (line 508). -/
def evaluate_quality_score (tasks : List TaskMetrics) : ℚ :=
  max 0 (evaluate_quality_raw tasks)

/-- Strengths appended by `_evaluate_quality`. -/
def evaluate_quality_strengths (tasks : List TaskMetrics) : List Strength :=
  if 0 < (substantialTasks tasks).length
  then [Strength.substantialOutputs (substantialTasks tasks).length] else []

/-- Weaknesses appended by `_evaluate_quality`: one per very short output,
in task order. -/
def evaluate_quality_weaknesses (tasks : List TaskMetrics) : List Weakness :=
  tasks.filterMap
    (fun t => if 0 < t.output_length ∧ t.output_length < 50
              then some (Weakness.shortOutput t.output_length) else none)

/-- `_score_to_grade` of `AgentEvaluator` (lines 510-521), character for
character the same code as the content evaluator's copy. -/
def score_to_grade (s : ℚ) : String :=
  if 90 ≤ s then "A"
  else if 80 ≤ s then "B"
  else if 70 ≤ s then "C"
  else if 60 ≤ s then "D"
  else "F"

/-- The record returned by `evaluate_agent_performance`. -/
structure AgentPerformanceScore where
  efficiency_score : ℚ
  reliability_score : ℚ
  quality_score : ℚ
  overall_score : ℚ
  grade : String
  strengths : List Strength
  weaknesses : List Weakness

/-- `evaluate_agent_performance` (lines 347-399). -/
def evaluate_agent_performance (agents : List AgentMetrics) (tasks : List TaskMetrics)
    (total_duration : ℚ) : AgentPerformanceScore :=
  let efficiency_score := evaluate_efficiency_score agents tasks total_duration
  let reliability_score := evaluate_reliability_score agents tasks
  let quality_score := evaluate_quality_score tasks
  let overall_score := efficiency_score * 0.30 + reliability_score * 0.35 +
                       quality_score * 0.35
  AgentPerformanceScore.mk
    (round2 efficiency_score) (round2 reliability_score) (round2 quality_score)
    (round2 overall_score) (score_to_grade overall_score)
    (evaluate_efficiency_strengths total_duration ++
     evaluate_reliability_strengths agents tasks ++ evaluate_quality_strengths tasks)
    (evaluate_efficiency_weaknesses agents tasks total_duration ++
     evaluate_reliability_weaknesses agents tasks ++ evaluate_quality_weaknesses tasks)

end AgentEvaluator

namespace ContentEvaluator

/-- Total penalty of `_evaluate_readability` in the non-exception case. -/
def readabilityPen (r : Readability) : ℕ :=
  (if r.reading_ease < 50 then 20 else if r.reading_ease < 60 then 10 else 0) +
  (if 12 < r.grade_level then 15 else if r.grade_level < 6 then 5 else 0) +
  (if 25 < r.avg_sentence_length then 10 else 0)

/-- `_evaluate_readability` result as a natural number. -/
def readabilityNat (m : Option Readability) : ℕ :=
  match m with
  | none => 75
  | some r => 100 - readabilityPen r

/-- Penalty of the H2-count check of `_evaluate_structure`. -/
def h2Pen (i : ContentInput) : ℕ :=
  if i.h2Count < 3 then 25 else if 8 < i.h2Count then 10 else 0

/-- Penalty of the H3-count check of `_evaluate_structure`. -/
def h3Pen (i : ContentInput) : ℕ := if i.h3Count = 0 then 10 else 0

/-- Penalty of the paragraph-count check of `_evaluate_structure`. -/
def paraPen (i : ContentInput) : ℕ := if i.paragraphs.length < 5 then 20 else 0

/-- Penalty of the list-count check of `_evaluate_structure`. -/
def listPen (i : ContentInput) : ℕ := if i.listCount = 0 then 10 else 0

/-- Penalty of the H1-substring check of `_evaluate_structure`. -/
def h1Pen (i : ContentInput) : ℕ := if containsH1 i.content = true then 15 else 0

/-- Penalty of the emphasis-count check of `_evaluate_structure`. -/
def emphasisPen (i : ContentInput) : ℕ := if i.emphasisCount = 0 then 5 else 0

/-- Total penalty of `_evaluate_structure`. -/
def structurePen (i : ContentInput) : ℕ :=
  h2Pen i + h3Pen i + paraPen i + listPen i + h1Pen i + emphasisPen i

/-- Penalty of the title-length check of `_evaluate_seo`. -/
def titlePen (i : ContentInput) : ℕ :=
  if i.title.length < 30 then 20 else if i.title.length < 50 then 10
  else if 70 < i.title.length then 15 else 0

/-- Penalty of the tag-count check of `_evaluate_seo`. -/
def tagPen (i : ContentInput) : ℕ :=
  if (tagList i.tags).length < 3 then 15
  else if 7 < (tagList i.tags).length then 10 else 0

/-- Penalty of the word-count check of `_evaluate_seo`. -/
def wcPen (i : ContentInput) : ℕ :=
  if wordCount i < 800 then 25 else if 2000 < wordCount i then 5 else 0

/-- Penalty of the keyword-overlap check of `_evaluate_seo`. -/
def keywordPen (i : ContentInput) : ℕ :=
  if keywordAppearances i.title i.content < 2 then 20 else 0

/-- Total penalty of `_evaluate_seo`. -/
def seoPen (i : ContentInput) : ℕ := titlePen i + tagPen i + wcPen i + keywordPen i

/-- Penalty of the introduction check of `_evaluate_completeness`. -/
def introPen (i : ContentInput) : ℕ :=
  if i.paragraphs.isEmpty = true then 0
  else if (pyWords (i.paragraphs.headD [])).length < 30 then 15 else 0

/-- Penalty of the conclusion check of `_evaluate_completeness`. -/
def conclusionPen (i : ContentInput) : ℕ :=
  if i.paragraphs.isEmpty = true then 0
  else if hasConclusion (i.paragraphs.getLastD []) = false ∧
          (pyWords (i.paragraphs.getLastD [])).length < 30 then 10 else 0

/-- Penalty of the section-depth check of `_evaluate_completeness`. -/
def depthPen (i : ContentInput) : ℕ :=
  if 0 < i.h2Count then
    (if (i.paragraphs.length : ℚ) / (i.h2Count : ℚ) < 2 then 20 else 0)
  else 0

/-- Penalty of the placeholder check of `_evaluate_completeness`. -/
def placeholderPen (i : ContentInput) : ℕ :=
  if hasPlaceholder i.content = true then 30 else 0

/-- Penalty of the minimum-viable-content check of `_evaluate_completeness`. -/
def shortTextPen (i : ContentInput) : ℕ := if wordCount i < 500 then 40 else 0

/-- Total penalty of `_evaluate_completeness`. -/
def completenessPen (i : ContentInput) : ℕ :=
  introPen i + conclusionPen i + depthPen i + placeholderPen i + shortTextPen i

end ContentEvaluator

namespace AgentEvaluator

/-- Total penalty of `_evaluate_efficiency`. -/
def efficiencyPen (agents : List AgentMetrics) (tasks : List TaskMetrics)
    (total_duration : ℚ) : ℕ :=
  (if total_duration < 30 then 0
   else if 90 < total_duration then 25
   else if 60 < total_duration then 15 else 0) +
  (if 10 < totalToolCalls agents then 15
   else if totalToolCalls agents < 3 then 10 else 0) +
  (if 0 < (slowTasks tasks).length then 10 * (slowTasks tasks).length else 0)

/-- Total penalty of `_evaluate_reliability`. -/
def reliabilityPen (agents : List AgentMetrics) (tasks : List TaskMetrics) : ℕ :=
  (if totalErrors agents = 0 then 0 else 20 * totalErrors agents) +
  (if 0 < (failedTasks tasks).length then 30 * (failedTasks tasks).length else 0) +
  (if 0 < (durationsPos tasks).length then
     (if 100 < durationVariance (durationsPos tasks) then 10 else 0)
   else 0)

/-- Total penalty of `_evaluate_quality`. -/
def qualityPen (tasks : List TaskMetrics) : ℕ := 15 * (shortOutputTasks tasks).length

end AgentEvaluator

/-- Rank of a letter grade, used to state that the grade is a monotone
step function of the score. -/
def gradeRank (g : String) : ℕ :=
  if g = "A" then 4 else if g = "B" then 3 else if g = "C" then 2
  else if g = "D" then 1 else 0

/-- A content input whose body carries literal placeholder text. -/
def loremInput : ContentEvaluator.ContentInput :=
  ContentEvaluator.ContentInput.mk
    ("t".toList) ("Intro text. lorem ipsum dolor sit amet.".toList) ("a".toList)
    0 0 [] 0 0 ("w".toList) none

/-- A content input whose raw content carries an H1 element written with an
attribute, while every other structure check is satisfied. -/
def h1AttrInput : ContentEvaluator.ContentInput :=
  ContentEvaluator.ContentInput.mk
    ("A title".toList)
    ("<h1 class=\"post-title\">Hello</h1><p>body text of the usual kind</p>".toList)
    ("a, b, c".toList)
    3 1
    (List.replicate 5 ("p".toList))
    1 1
    ("w".toList)
    none

/-- A content input with no paragraph elements, a clean body and a
500-word plain-text extraction. -/
def emptyParaInput : ContentEvaluator.ContentInput :=
  ContentEvaluator.ContentInput.mk
    ("t".toList)
    ("tidy body".toList)
    ("a".toList)
    0 0 [] 0 0
    ((List.replicate 500 ("w ".toList)).flatten)
    none

/-- A content input on which the readability metrics computation failed. -/
def noMetricsInput : ContentEvaluator.ContentInput :=
  ContentEvaluator.ContentInput.mk
    ("t".toList) ("b".toList) ("a".toList) 0 0 [] 0 0 ("w".toList) none

/-- A run with one agent, five tool calls, no errors, one completed task. -/
def cleanAgents : List AgentEvaluator.AgentMetrics := [AgentEvaluator.AgentMetrics.mk 5 []]

/-- The single completed task of the clean run. -/
def cleanTasks : List AgentEvaluator.TaskMetrics :=
  [AgentEvaluator.TaskMetrics.mk "completed" 5 600]

/-- A content input realising scenario A in its best case: exactly 2 H2
sections and a 400-word body, with every avoidable deduction avoided
(failing readability metrics give the 75 fallback). -/
def scenarioAInput : ContentEvaluator.ContentInput :=
  ContentEvaluator.ContentInput.mk
    ("Understanding Quality Evaluation for Modern Blog Posts".toList)
    (("<h2>Quality</h2><p>This post covers quality and evaluation in depth " ++
      "for the modern reader.</p>").toList)
    ("quality, evaluation, blogging, writing".toList)
    2 1
    [(List.replicate 32 ("word ".toList)).flatten,
     "some text".toList, "some text".toList, "some text".toList,
     "In conclusion this is the end.".toList]
    1 1
    ((List.replicate 400 ("w ".toList)).flatten)
    none

set_option maxRecDepth 10000

lemma startsWith_map (f : Char → Char) :
    ∀ a b : List Char, startsWith a b = true → startsWith (a.map f) (b.map f) = true := by
  intro a
  induction a with
  | nil => intro b h; simp [startsWith]
  | cons x xs ih =>
    intro b h
    cases b with
    | nil => simp [startsWith] at h
    | cons y ys =>
      simp only [startsWith, Bool.and_eq_true, beq_iff_eq] at h
      obtain ⟨h1, h2⟩ := h
      subst h1
      simp only [List.map_cons, startsWith, Bool.and_eq_true, beq_iff_eq]
      exact ⟨trivial, ih ys h2⟩

lemma isSubstr_map (f : Char → Char) (n : List Char) :
    ∀ l : List Char, isSubstr n l = true → isSubstr (n.map f) (l.map f) = true := by
  intro l
  induction l with
  | nil =>
    intro h
    cases n with
    | nil => simp [isSubstr]
    | cons x xs => simp [isSubstr] at h
  | cons c rest ih =>
    intro h
    simp only [isSubstr, Bool.or_eq_true] at h
    simp only [List.map_cons, isSubstr, Bool.or_eq_true]
    rcases h with h | h
    · left
      have hs := startsWith_map f n (c :: rest) h
      simpa using hs
    · right
      exact ih h

/-! ### Penalty decompositions

Each scoring pass of the source subtracts constants from a running total
started at `100.0` and clamps with `max(0, score)` at the end.  The
following helpers restate each pass as `100` minus a sum of per-check
natural-number penalties, which is the form the range and deduction
lemmas below are proved in. -/

lemma max_zero_cast (p : ℕ) : max 0 ((100 : ℚ) - (p : ℚ)) = ((100 - p : ℕ) : ℚ) := by
  rcases le_or_lt p 100 with h | h
  · have hq : (p : ℚ) ≤ 100 := by exact_mod_cast h
    rw [max_eq_right (by linarith), Nat.cast_sub h]
    norm_num
  · have hq : (100 : ℚ) ≤ (p : ℚ) := by exact_mod_cast h.le
    rw [Nat.sub_eq_zero_of_le h.le, Nat.cast_zero, max_eq_left (by linarith)]

namespace ContentEvaluator

lemma readability_raw_eq (r : Readability) :
    evaluate_readability_raw (some r) = 100 - (readabilityPen r : ℚ) := by
  simp only [evaluate_readability_raw, readabilityPen]
  split_ifs <;> push_cast <;> ring

lemma readability_score_eq (m : Option Readability) :
    evaluate_readability_score m = (readabilityNat m : ℚ) := by
  cases m with
  | none =>
    simp only [evaluate_readability_score, evaluate_readability_raw, readabilityNat]
    norm_num [max_def]
  | some r =>
    simp only [evaluate_readability_score, readability_raw_eq, readabilityNat]
    exact max_zero_cast _

lemma readabilityNat_le (m : Option Readability) : readabilityNat m ≤ 100 := by
  cases m with
  | none => norm_num [readabilityNat]
  | some r => exact Nat.sub_le _ _

lemma structure_raw_eq (i : ContentInput) :
    evaluate_structure_raw i = 100 - (structurePen i : ℚ) := by
  simp only [evaluate_structure_raw, structurePen, h2Pen, h3Pen, paraPen, listPen,
    h1Pen, emphasisPen]
  split_ifs <;> push_cast <;> ring

lemma structure_score_eq (i : ContentInput) :
    evaluate_structure_score i = ((100 - structurePen i : ℕ) : ℚ) := by
  rw [evaluate_structure_score, structure_raw_eq, max_zero_cast]

lemma seo_raw_eq (i : ContentInput) :
    evaluate_seo_raw i = 100 - (seoPen i : ℚ) := by
  simp only [evaluate_seo_raw, seoPen, titlePen, tagPen, wcPen, keywordPen]
  split_ifs <;> push_cast <;> ring

lemma seo_score_eq (i : ContentInput) :
    evaluate_seo_score i = ((100 - seoPen i : ℕ) : ℚ) := by
  rw [evaluate_seo_score, seo_raw_eq, max_zero_cast]

lemma completeness_raw_eq (i : ContentInput) :
    evaluate_completeness_raw i = 100 - (completenessPen i : ℚ) := by
  simp only [evaluate_completeness_raw, completenessPen, introPen, conclusionPen,
    depthPen, placeholderPen, shortTextPen]
  split_ifs <;> push_cast <;> ring

lemma completeness_score_eq (i : ContentInput) :
    evaluate_completeness_score i = ((100 - completenessPen i : ℕ) : ℚ) := by
  rw [evaluate_completeness_score, completeness_raw_eq, max_zero_cast]

end ContentEvaluator

namespace AgentEvaluator

lemma efficiency_raw_eq (agents : List AgentMetrics) (tasks : List TaskMetrics)
    (total_duration : ℚ) :
    evaluate_efficiency_raw agents tasks total_duration =
      100 - (efficiencyPen agents tasks total_duration : ℚ) := by
  simp only [evaluate_efficiency_raw, efficiencyPen]
  split_ifs <;> push_cast <;> ring

lemma efficiency_score_eq (agents : List AgentMetrics) (tasks : List TaskMetrics)
    (total_duration : ℚ) :
    evaluate_efficiency_score agents tasks total_duration =
      ((100 - efficiencyPen agents tasks total_duration : ℕ) : ℚ) := by
  rw [evaluate_efficiency_score, efficiency_raw_eq, max_zero_cast]

lemma reliability_raw_eq (agents : List AgentMetrics) (tasks : List TaskMetrics) :
    evaluate_reliability_raw agents tasks = 100 - (reliabilityPen agents tasks : ℚ) := by
  simp only [evaluate_reliability_raw, reliabilityPen]
  split_ifs <;> push_cast <;> ring

lemma reliability_score_eq (agents : List AgentMetrics) (tasks : List TaskMetrics) :
    evaluate_reliability_score agents tasks =
      ((100 - reliabilityPen agents tasks : ℕ) : ℚ) := by
  rw [evaluate_reliability_score, reliability_raw_eq, max_zero_cast]

lemma quality_foldl (l : List TaskMetrics) (s : ℚ) :
    l.foldl (fun s t => if 0 < t.output_length ∧ t.output_length < 50 then s - 15 else s) s =
      s - 15 * ((shortOutputTasks l).length : ℚ) := by
  induction l generalizing s with
  | nil => simp [shortOutputTasks]
  | cons t l ih =>
    by_cases h : 0 < t.output_length ∧ t.output_length < 50 <;>
      simp [List.foldl_cons, shortOutputTasks, List.filter_cons, h, ih] <;>
      push_cast <;> ring

lemma quality_raw_eq (tasks : List TaskMetrics) :
    evaluate_quality_raw tasks = 100 - (qualityPen tasks : ℚ) := by
  rw [evaluate_quality_raw, quality_foldl, qualityPen]
  push_cast
  ring

lemma quality_score_eq (tasks : List TaskMetrics) :
    evaluate_quality_score tasks = ((100 - qualityPen tasks : ℕ) : ℚ) := by
  rw [evaluate_quality_score, quality_raw_eq, max_zero_cast]

end AgentEvaluator

/-! ### Rounding lemmas

Every score handed to `round(x, 2)` satisfies `x * 100 ∈ ℤ`, so the
rounding is the identity on all values the evaluators produce. -/

lemma round2_eq_self (q : ℚ) (z : ℤ) (h : q * 100 = (z : ℚ)) : round2 q = q := by
  unfold round2
  rw [h, round_intCast]
  rw [div_eq_iff (by norm_num : (100 : ℚ) ≠ 0)]
  exact h.symm

lemma round2_natCast (n : ℕ) : round2 ((n : ℕ) : ℚ) = (n : ℚ) :=
  round2_eq_self _ ((n : ℤ) * 100) (by push_cast; ring)

/-! ### Projection lemmas for the two result records -/

namespace ContentEvaluator

lemma content_readability_def (i : ContentInput) :
    (evaluate_content i).readability_score = round2 (evaluate_readability_score i.readability) := rfl

lemma content_structure_def (i : ContentInput) :
    (evaluate_content i).structure_score = round2 (evaluate_structure_score i) := rfl

lemma content_seo_def (i : ContentInput) :
    (evaluate_content i).seo_score = round2 (evaluate_seo_score i) := rfl

lemma content_completeness_def (i : ContentInput) :
    (evaluate_content i).completeness_score = round2 (evaluate_completeness_score i) := rfl

lemma content_overall_def (i : ContentInput) :
    (evaluate_content i).overall_score =
      round2 (evaluate_readability_score i.readability * 0.25 + evaluate_structure_score i * 0.25 +
              evaluate_seo_score i * 0.25 + evaluate_completeness_score i * 0.25) := rfl

lemma content_grade_def (i : ContentInput) :
    (evaluate_content i).grade =
      score_to_grade (evaluate_readability_score i.readability * 0.25 +
                      evaluate_structure_score i * 0.25 +
                      evaluate_seo_score i * 0.25 + evaluate_completeness_score i * 0.25) := rfl

lemma content_issues_def (i : ContentInput) :
    (evaluate_content i).issues =
      evaluate_readability_issues i.readability ++ evaluate_structure_issues i ++
      evaluate_seo_issues i ++ evaluate_completeness_issues i := rfl

lemma content_recs_def (i : ContentInput) :
    (evaluate_content i).recommendations =
      evaluate_readability_recs i.readability ++ evaluate_structure_recs i ++
      evaluate_seo_recs i ++ evaluate_completeness_recs i := rfl

end ContentEvaluator

namespace AgentEvaluator

lemma agent_efficiency_def (agents : List AgentMetrics) (tasks : List TaskMetrics) (d : ℚ) :
    (evaluate_agent_performance agents tasks d).efficiency_score =
      round2 (evaluate_efficiency_score agents tasks d) := rfl

lemma agent_reliability_def (agents : List AgentMetrics) (tasks : List TaskMetrics) (d : ℚ) :
    (evaluate_agent_performance agents tasks d).reliability_score =
      round2 (evaluate_reliability_score agents tasks) := rfl

lemma agent_quality_def (agents : List AgentMetrics) (tasks : List TaskMetrics) (d : ℚ) :
    (evaluate_agent_performance agents tasks d).quality_score =
      round2 (evaluate_quality_score tasks) := rfl

lemma agent_overall_def (agents : List AgentMetrics) (tasks : List TaskMetrics) (d : ℚ) :
    (evaluate_agent_performance agents tasks d).overall_score =
      round2 (evaluate_efficiency_score agents tasks d * 0.30 +
              evaluate_reliability_score agents tasks * 0.35 +
              evaluate_quality_score tasks * 0.35) := rfl

lemma agent_grade_def (agents : List AgentMetrics) (tasks : List TaskMetrics) (d : ℚ) :
    (evaluate_agent_performance agents tasks d).grade =
      score_to_grade (evaluate_efficiency_score agents tasks d * 0.30 +
                      evaluate_reliability_score agents tasks * 0.35 +
                      evaluate_quality_score tasks * 0.35) := rfl

lemma agent_strengths_def (agents : List AgentMetrics) (tasks : List TaskMetrics) (d : ℚ) :
    (evaluate_agent_performance agents tasks d).strengths =
      evaluate_efficiency_strengths d ++ evaluate_reliability_strengths agents tasks ++
      evaluate_quality_strengths tasks := rfl

lemma agent_weaknesses_def (agents : List AgentMetrics) (tasks : List TaskMetrics) (d : ℚ) :
    (evaluate_agent_performance agents tasks d).weaknesses =
      evaluate_efficiency_weaknesses agents tasks d ++
      evaluate_reliability_weaknesses agents tasks ++ evaluate_quality_weaknesses tasks := rfl

end AgentEvaluator

/-! ### Claim theorems -/

lemma natScore_bounds (n : ℕ) (h : n ≤ 100) : 0 ≤ ((n : ℕ) : ℚ) ∧ ((n : ℕ) : ℚ) ≤ 100 :=
  ⟨Nat.cast_nonneg n, by exact_mod_cast h⟩

/-- C1: for every input, the `overall_score` stored by `evaluate_content`
equals the unweighted mean of the four stored axis fields. -/
theorem content_overall_is_mean (i : ContentEvaluator.ContentInput) :
    (ContentEvaluator.evaluate_content i).overall_score =
      ((ContentEvaluator.evaluate_content i).readability_score +
       (ContentEvaluator.evaluate_content i).structure_score +
       (ContentEvaluator.evaluate_content i).seo_score +
       (ContentEvaluator.evaluate_content i).completeness_score) / 4 := by
  rw [ContentEvaluator.content_overall_def, ContentEvaluator.content_readability_def,
    ContentEvaluator.content_structure_def, ContentEvaluator.content_seo_def,
    ContentEvaluator.content_completeness_def, ContentEvaluator.readability_score_eq,
    ContentEvaluator.structure_score_eq, ContentEvaluator.seo_score_eq,
    ContentEvaluator.completeness_score_eq, round2_natCast, round2_natCast,
    round2_natCast, round2_natCast]
  have h025 : (0.25 : ℚ) = 1 / 4 := by norm_num
  rw [h025, round2_eq_self _
    (25 * ((ContentEvaluator.readabilityNat i.readability : ℤ) +
           ((100 - ContentEvaluator.structurePen i : ℕ) : ℤ) +
           ((100 - ContentEvaluator.seoPen i : ℕ) : ℤ) +
           ((100 - ContentEvaluator.completenessPen i : ℕ) : ℤ)))
    (by push_cast; ring)]
  ring

/-- C3: the two `_score_to_grade` copies are the same pure function, it
realises exactly the five bands with inclusive lower bounds, and it is a
monotone step function of the score. -/
theorem grade_bands (s t : ℚ) :
    ContentEvaluator.score_to_grade s = AgentEvaluator.score_to_grade s ∧
    (90 ≤ s → ContentEvaluator.score_to_grade s = "A") ∧
    (80 ≤ s ∧ s < 90 → ContentEvaluator.score_to_grade s = "B") ∧
    (70 ≤ s ∧ s < 80 → ContentEvaluator.score_to_grade s = "C") ∧
    (60 ≤ s ∧ s < 70 → ContentEvaluator.score_to_grade s = "D") ∧
    (s < 60 → ContentEvaluator.score_to_grade s = "F") ∧
    (s ≤ t → gradeRank (ContentEvaluator.score_to_grade s) ≤
             gradeRank (ContentEvaluator.score_to_grade t)) := by
  refine ⟨rfl, ?_, ?_, ?_, ?_, ?_, ?_⟩
  · intro h
    simp only [ContentEvaluator.score_to_grade]
    rw [if_pos h]
  · rintro ⟨h1, h2⟩
    simp only [ContentEvaluator.score_to_grade]
    rw [if_neg (by linarith), if_pos h1]
  · rintro ⟨h1, h2⟩
    simp only [ContentEvaluator.score_to_grade]
    rw [if_neg (by linarith), if_neg (by linarith), if_pos h1]
  · rintro ⟨h1, h2⟩
    simp only [ContentEvaluator.score_to_grade]
    rw [if_neg (by linarith), if_neg (by linarith), if_neg (by linarith), if_pos h1]
  · intro h
    simp only [ContentEvaluator.score_to_grade]
    rw [if_neg (by linarith), if_neg (by linarith), if_neg (by linarith),
      if_neg (by linarith)]
  · intro hst
    simp only [ContentEvaluator.score_to_grade]
    split_ifs <;> first | decide | linarith

/-- C3 witness: the theorem applied at the band boundary 80 and at a
pair witnessing monotonicity. -/
theorem grade_bands_witness :
    ContentEvaluator.score_to_grade 80 = "B" ∧
    gradeRank (ContentEvaluator.score_to_grade 59) ≤
      gradeRank (ContentEvaluator.score_to_grade 90) :=
  ⟨(grade_bands 80 90).2.2.1 (by norm_num),
   (grade_bands 59 90).2.2.2.2.2.2 (by norm_num)⟩

/-- C4: the `overall_score` stored by `evaluate_agent_performance` is the
0.30/0.35/0.35 weighted sum of the three stored axis fields, each of which
is already clamped to the interval [0, 100]. -/
theorem agent_overall_weighted (agents : List AgentEvaluator.AgentMetrics)
    (tasks : List AgentEvaluator.TaskMetrics) (d : ℚ) :
    (AgentEvaluator.evaluate_agent_performance agents tasks d).overall_score =
      0.30 * (AgentEvaluator.evaluate_agent_performance agents tasks d).efficiency_score +
      0.35 * (AgentEvaluator.evaluate_agent_performance agents tasks d).reliability_score +
      0.35 * (AgentEvaluator.evaluate_agent_performance agents tasks d).quality_score ∧
    (0 ≤ (AgentEvaluator.evaluate_agent_performance agents tasks d).efficiency_score ∧
       (AgentEvaluator.evaluate_agent_performance agents tasks d).efficiency_score ≤ 100) ∧
    (0 ≤ (AgentEvaluator.evaluate_agent_performance agents tasks d).reliability_score ∧
       (AgentEvaluator.evaluate_agent_performance agents tasks d).reliability_score ≤ 100) ∧
    (0 ≤ (AgentEvaluator.evaluate_agent_performance agents tasks d).quality_score ∧
       (AgentEvaluator.evaluate_agent_performance agents tasks d).quality_score ≤ 100) := by
  rw [AgentEvaluator.agent_overall_def, AgentEvaluator.agent_efficiency_def,
    AgentEvaluator.agent_reliability_def, AgentEvaluator.agent_quality_def,
    AgentEvaluator.efficiency_score_eq, AgentEvaluator.reliability_score_eq,
    AgentEvaluator.quality_score_eq, round2_natCast, round2_natCast, round2_natCast]
  have h030 : (0.30 : ℚ) = 3 / 10 := by norm_num
  have h035 : (0.35 : ℚ) = 7 / 20 := by norm_num
  refine ⟨?_, natScore_bounds _ (Nat.sub_le _ _), natScore_bounds _ (Nat.sub_le _ _),
    natScore_bounds _ (Nat.sub_le _ _)⟩
  rw [h030, h035, round2_eq_self _
    (30 * ((100 - AgentEvaluator.efficiencyPen agents tasks d : ℕ) : ℤ) +
     35 * ((100 - AgentEvaluator.reliabilityPen agents tasks : ℕ) : ℤ) +
     35 * ((100 - AgentEvaluator.qualityPen tasks : ℕ) : ℤ))
    (by push_cast; ring)]
  ring

lemma content_overall_nat (i : ContentEvaluator.ContentInput) :
    (ContentEvaluator.evaluate_content i).overall_score =
      ((ContentEvaluator.readabilityNat i.readability +
        (100 - ContentEvaluator.structurePen i) +
        (100 - ContentEvaluator.seoPen i) +
        (100 - ContentEvaluator.completenessPen i) : ℕ) : ℚ) / 4 := by
  rw [ContentEvaluator.content_overall_def, ContentEvaluator.readability_score_eq,
    ContentEvaluator.structure_score_eq, ContentEvaluator.seo_score_eq,
    ContentEvaluator.completeness_score_eq]
  have h025 : (0.25 : ℚ) = 1 / 4 := by norm_num
  rw [h025, round2_eq_self _
    (25 * ((ContentEvaluator.readabilityNat i.readability : ℤ) +
           ((100 - ContentEvaluator.structurePen i : ℕ) : ℤ) +
           ((100 - ContentEvaluator.seoPen i : ℕ) : ℤ) +
           ((100 - ContentEvaluator.completenessPen i : ℕ) : ℤ)))
    (by push_cast; ring)]
  push_cast
  ring

lemma agent_overall_nat (agents : List AgentEvaluator.AgentMetrics)
    (tasks : List AgentEvaluator.TaskMetrics) (d : ℚ) :
    (AgentEvaluator.evaluate_agent_performance agents tasks d).overall_score =
      ((30 * (100 - AgentEvaluator.efficiencyPen agents tasks d) +
        35 * (100 - AgentEvaluator.reliabilityPen agents tasks) +
        35 * (100 - AgentEvaluator.qualityPen tasks) : ℕ) : ℚ) / 100 := by
  rw [AgentEvaluator.agent_overall_def, AgentEvaluator.efficiency_score_eq,
    AgentEvaluator.reliability_score_eq, AgentEvaluator.quality_score_eq]
  have h030 : (0.30 : ℚ) = 3 / 10 := by norm_num
  have h035 : (0.35 : ℚ) = 7 / 20 := by norm_num
  rw [h030, h035, round2_eq_self _
    (30 * ((100 - AgentEvaluator.efficiencyPen agents tasks d : ℕ) : ℤ) +
     35 * ((100 - AgentEvaluator.reliabilityPen agents tasks : ℕ) : ℤ) +
     35 * ((100 - AgentEvaluator.qualityPen tasks : ℕ) : ℤ))
    (by push_cast; ring)]
  push_cast
  ring

/-- C2: every axis score field and the overall score field returned by
`evaluate_content` and by `evaluate_agent_performance` lies in [0, 100]. -/
theorem all_scores_in_range (i : ContentEvaluator.ContentInput)
    (agents : List AgentEvaluator.AgentMetrics)
    (tasks : List AgentEvaluator.TaskMetrics) (d : ℚ) :
    (0 ≤ (ContentEvaluator.evaluate_content i).readability_score ∧
       (ContentEvaluator.evaluate_content i).readability_score ≤ 100) ∧
    (0 ≤ (ContentEvaluator.evaluate_content i).structure_score ∧
       (ContentEvaluator.evaluate_content i).structure_score ≤ 100) ∧
    (0 ≤ (ContentEvaluator.evaluate_content i).seo_score ∧
       (ContentEvaluator.evaluate_content i).seo_score ≤ 100) ∧
    (0 ≤ (ContentEvaluator.evaluate_content i).completeness_score ∧
       (ContentEvaluator.evaluate_content i).completeness_score ≤ 100) ∧
    (0 ≤ (ContentEvaluator.evaluate_content i).overall_score ∧
       (ContentEvaluator.evaluate_content i).overall_score ≤ 100) ∧
    (0 ≤ (AgentEvaluator.evaluate_agent_performance agents tasks d).efficiency_score ∧
       (AgentEvaluator.evaluate_agent_performance agents tasks d).efficiency_score ≤ 100) ∧
    (0 ≤ (AgentEvaluator.evaluate_agent_performance agents tasks d).reliability_score ∧
       (AgentEvaluator.evaluate_agent_performance agents tasks d).reliability_score ≤ 100) ∧
    (0 ≤ (AgentEvaluator.evaluate_agent_performance agents tasks d).quality_score ∧
       (AgentEvaluator.evaluate_agent_performance agents tasks d).quality_score ≤ 100) ∧
    (0 ≤ (AgentEvaluator.evaluate_agent_performance agents tasks d).overall_score ∧
       (AgentEvaluator.evaluate_agent_performance agents tasks d).overall_score ≤ 100) := by
  refine ⟨?_, ?_, ?_, ?_, ?_, ?_, ?_, ?_, ?_⟩
  · rw [ContentEvaluator.content_readability_def, ContentEvaluator.readability_score_eq,
      round2_natCast]
    exact natScore_bounds _ (ContentEvaluator.readabilityNat_le _)
  · rw [ContentEvaluator.content_structure_def, ContentEvaluator.structure_score_eq,
      round2_natCast]
    exact natScore_bounds _ (Nat.sub_le _ _)
  · rw [ContentEvaluator.content_seo_def, ContentEvaluator.seo_score_eq, round2_natCast]
    exact natScore_bounds _ (Nat.sub_le _ _)
  · rw [ContentEvaluator.content_completeness_def, ContentEvaluator.completeness_score_eq,
      round2_natCast]
    exact natScore_bounds _ (Nat.sub_le _ _)
  · rw [content_overall_nat]
    have h1 : ContentEvaluator.readabilityNat i.readability ≤ 100 :=
      ContentEvaluator.readabilityNat_le _
    have h2 : 100 - ContentEvaluator.structurePen i ≤ 100 := Nat.sub_le _ _
    have h3 : 100 - ContentEvaluator.seoPen i ≤ 100 := Nat.sub_le _ _
    have h4 : 100 - ContentEvaluator.completenessPen i ≤ 100 := Nat.sub_le _ _
    have hsum : ContentEvaluator.readabilityNat i.readability +
        (100 - ContentEvaluator.structurePen i) + (100 - ContentEvaluator.seoPen i) +
        (100 - ContentEvaluator.completenessPen i) ≤ 400 := by omega
    have hq : ((ContentEvaluator.readabilityNat i.readability +
        (100 - ContentEvaluator.structurePen i) + (100 - ContentEvaluator.seoPen i) +
        (100 - ContentEvaluator.completenessPen i) : ℕ) : ℚ) ≤ 400 := by exact_mod_cast hsum
    constructor
    · positivity
    · linarith
  · rw [AgentEvaluator.agent_efficiency_def, AgentEvaluator.efficiency_score_eq,
      round2_natCast]
    exact natScore_bounds _ (Nat.sub_le _ _)
  · rw [AgentEvaluator.agent_reliability_def, AgentEvaluator.reliability_score_eq,
      round2_natCast]
    exact natScore_bounds _ (Nat.sub_le _ _)
  · rw [AgentEvaluator.agent_quality_def, AgentEvaluator.quality_score_eq, round2_natCast]
    exact natScore_bounds _ (Nat.sub_le _ _)
  · rw [agent_overall_nat]
    have h1 : 100 - AgentEvaluator.efficiencyPen agents tasks d ≤ 100 := Nat.sub_le _ _
    have h2 : 100 - AgentEvaluator.reliabilityPen agents tasks ≤ 100 := Nat.sub_le _ _
    have h3 : 100 - AgentEvaluator.qualityPen tasks ≤ 100 := Nat.sub_le _ _
    have hsum : 30 * (100 - AgentEvaluator.efficiencyPen agents tasks d) +
        35 * (100 - AgentEvaluator.reliabilityPen agents tasks) +
        35 * (100 - AgentEvaluator.qualityPen tasks) ≤ 10000 := by omega
    have hq : ((30 * (100 - AgentEvaluator.efficiencyPen agents tasks d) +
        35 * (100 - AgentEvaluator.reliabilityPen agents tasks) +
        35 * (100 - AgentEvaluator.qualityPen tasks) : ℕ) : ℚ) ≤ 10000 := by
      exact_mod_cast hsum
    constructor
    · positivity
    · linarith

/-- C6: the completeness pass records the placeholder issue exactly when one
of the five markers occurs case-insensitively in the raw content, and that
check contributes exactly 30 penalty points to the pre-clamp running total,
independently of the other four checks. -/
theorem placeholder_deduction (i : ContentEvaluator.ContentInput) :
    (ContentEvaluator.Issue.placeholderText ∈ ContentEvaluator.evaluate_completeness_issues i ↔
       ContentEvaluator.hasPlaceholder i.content = true) ∧
    ContentEvaluator.evaluate_completeness_raw i =
      100 - (ContentEvaluator.introPen i : ℚ) - (ContentEvaluator.conclusionPen i : ℚ) -
      (ContentEvaluator.depthPen i : ℚ) -
      (if ContentEvaluator.hasPlaceholder i.content = true then 30 else 0) -
      (ContentEvaluator.shortTextPen i : ℚ) ∧
    (isSubstr ("lorem ipsum".toList) i.content = true →
      ContentEvaluator.Issue.placeholderText ∈ ContentEvaluator.evaluate_completeness_issues i) := by
  have hiff : ContentEvaluator.Issue.placeholderText ∈
      ContentEvaluator.evaluate_completeness_issues i ↔
      ContentEvaluator.hasPlaceholder i.content = true := by
    by_cases hp : ContentEvaluator.hasPlaceholder i.content = true
    · simp [ContentEvaluator.evaluate_completeness_issues, hp]
    · simp only [ContentEvaluator.evaluate_completeness_issues, hp, List.mem_append,
        iff_false]
      split_ifs <;> simp_all
  refine ⟨hiff, ?_, ?_⟩
  · rw [ContentEvaluator.completeness_raw_eq, ContentEvaluator.completenessPen,
      ContentEvaluator.placeholderPen]
    by_cases hp : ContentEvaluator.hasPlaceholder i.content = true <;>
      simp only [hp, if_true, if_false, ite_true, ite_false] <;> push_cast <;> ring
  · intro h
    have hmap := isSubstr_map Char.toLower _ _ h
    rw [show ("lorem ipsum".toList).map Char.toLower = "lorem ipsum".toList from by decide]
      at hmap
    apply hiff.mpr
    simp only [ContentEvaluator.hasPlaceholder, ContentEvaluator.placeholderMarkers,
      List.any_cons, Bool.or_eq_true]
    left
    exact hmap

/-- C6 witness: the theorem applied to a body containing `lorem ipsum`. -/
theorem placeholder_deduction_witness :
    isSubstr ("lorem ipsum".toList) loremInput.content = true ∧
    ContentEvaluator.Issue.placeholderText ∈
      ContentEvaluator.evaluate_completeness_issues loremInput :=
  ⟨by decide, (placeholder_deduction loremInput).2.2 (by decide)⟩

/-- C9 counterexample: this input contains a top-level heading tag (it even
starts with `<h1 `), yet the structure pass records no H1 issue and deducts
nothing: its score is a full 100.  The source only tests for the literal
four-character substring `<h1>`. -/
theorem h1_literal_counterexample :
    isSubstr ("<h1 ".toList) h1AttrInput.content = true ∧
    ContentEvaluator.Issue.containsH1 ∉ ContentEvaluator.evaluate_structure_issues h1AttrInput ∧
    ContentEvaluator.evaluate_structure_score h1AttrInput = 100 := by
  refine ⟨by decide, by decide, ?_⟩
  have hpen : ContentEvaluator.structurePen h1AttrInput = 0 := by decide
  rw [ContentEvaluator.structure_score_eq, hpen]
  norm_num

/-- C9 amended: the structure pass records the H1 issue, and deducts exactly
15 points from the pre-clamp running total, precisely when the literal
substring `<h1>` occurs in the lowercased raw content; H1 tags written with
attributes or extra whitespace inside the bracket are not detected. -/
theorem h1_detection_amended (i : ContentEvaluator.ContentInput) :
    (ContentEvaluator.Issue.containsH1 ∈ ContentEvaluator.evaluate_structure_issues i ↔
       ContentEvaluator.containsH1 i.content = true) ∧
    ContentEvaluator.evaluate_structure_raw i =
      100 - (ContentEvaluator.h2Pen i : ℚ) - (ContentEvaluator.h3Pen i : ℚ) -
      (ContentEvaluator.paraPen i : ℚ) - (ContentEvaluator.listPen i : ℚ) -
      (if ContentEvaluator.containsH1 i.content = true then 15 else 0) -
      (ContentEvaluator.emphasisPen i : ℚ) := by
  constructor
  · by_cases hp : ContentEvaluator.containsH1 i.content = true
    · simp [ContentEvaluator.evaluate_structure_issues, hp]
    · simp only [ContentEvaluator.evaluate_structure_issues, hp, List.mem_append,
        iff_false]
      split_ifs <;> simp_all
  · rw [ContentEvaluator.structure_raw_eq, ContentEvaluator.structurePen,
      ContentEvaluator.h1Pen]
    by_cases hp : ContentEvaluator.containsH1 i.content = true <;>
      simp only [hp, if_true, if_false, ite_true, ite_false] <;> push_cast <;> ring

/-- C10: with no paragraph elements the completeness pass applies neither
the short-introduction nor the missing-conclusion deduction, and if in
addition there is no H2 heading, no placeholder marker and at least 500
words, the completeness score is exactly 100. -/
theorem no_paragraph_completeness (i : ContentEvaluator.ContentInput)
    (hp : i.paragraphs = []) :
    ContentEvaluator.introPen i = 0 ∧ ContentEvaluator.conclusionPen i = 0 ∧
    ContentEvaluator.Issue.shortIntro ∉ ContentEvaluator.evaluate_completeness_issues i ∧
    ContentEvaluator.Advice.addConclusion ∉ ContentEvaluator.evaluate_completeness_recs i ∧
    (i.h2Count = 0 → ContentEvaluator.hasPlaceholder i.content = false →
      500 ≤ ContentEvaluator.wordCount i →
      ContentEvaluator.evaluate_completeness_score i = 100 ∧
      (ContentEvaluator.evaluate_content i).completeness_score = 100) := by
  have he : i.paragraphs.isEmpty = true := by simp [hp]
  refine ⟨?_, ?_, ?_, ?_, ?_⟩
  · simp [ContentEvaluator.introPen, he]
  · simp [ContentEvaluator.conclusionPen, he]
  · simp only [ContentEvaluator.evaluate_completeness_issues, he, List.mem_append]
    split_ifs <;> simp_all
  · simp only [ContentEvaluator.evaluate_completeness_recs, he, List.mem_append]
    split_ifs <;> simp_all
  · intro h2 hpl hwc
    have hpen : ContentEvaluator.completenessPen i = 0 := by
      rw [ContentEvaluator.completenessPen]
      rw [show ContentEvaluator.introPen i = 0 by simp [ContentEvaluator.introPen, he]]
      rw [show ContentEvaluator.conclusionPen i = 0 by
        simp [ContentEvaluator.conclusionPen, he]]
      rw [show ContentEvaluator.depthPen i = 0 by simp [ContentEvaluator.depthPen, h2]]
      rw [show ContentEvaluator.placeholderPen i = 0 by
        simp [ContentEvaluator.placeholderPen, hpl]]
      rw [show ContentEvaluator.shortTextPen i = 0 by
        simp only [ContentEvaluator.shortTextPen, if_neg (by omega : ¬ ContentEvaluator.wordCount i < 500)]]
    have hscore : ContentEvaluator.evaluate_completeness_score i = 100 := by
      rw [ContentEvaluator.completeness_score_eq, hpen]
      norm_num
    refine ⟨hscore, ?_⟩
    rw [ContentEvaluator.content_completeness_def, hscore]
    have h100 := round2_natCast 100
    norm_num at h100
    exact h100

/-- C10 witness: the theorem applied to `emptyParaInput`. -/
theorem no_paragraph_completeness_witness :
    emptyParaInput.paragraphs = [] ∧ emptyParaInput.h2Count = 0 ∧
    500 ≤ ContentEvaluator.wordCount emptyParaInput ∧
    ContentEvaluator.evaluate_completeness_score emptyParaInput = 100 :=
  ⟨rfl, rfl, by decide,
   ((no_paragraph_completeness emptyParaInput rfl).2.2.2.2 rfl (by decide) (by decide)).1⟩

/-- C8: `evaluate_content` is a total function of its input; when the
readability metrics computation fails, the readability axis is forced to
exactly 75 with a recorded issue, while the three other axis fields are
unchanged under any replacement of the readability metrics and the overall
result is assembled from them as usual. -/
theorem readability_fallback (i : ContentEvaluator.ContentInput)
    (m : Option ContentEvaluator.Readability) (hn : i.readability = none) :
    (ContentEvaluator.evaluate_content i).readability_score = 75 ∧
    ContentEvaluator.Issue.couldNotAssess ∈ (ContentEvaluator.evaluate_content i).issues ∧
    (ContentEvaluator.evaluate_content
        (ContentEvaluator.ContentInput.mk i.title i.content i.tags i.h2Count i.h3Count
          i.paragraphs i.listCount i.emphasisCount i.text m)).structure_score =
      (ContentEvaluator.evaluate_content i).structure_score ∧
    (ContentEvaluator.evaluate_content
        (ContentEvaluator.ContentInput.mk i.title i.content i.tags i.h2Count i.h3Count
          i.paragraphs i.listCount i.emphasisCount i.text m)).seo_score =
      (ContentEvaluator.evaluate_content i).seo_score ∧
    (ContentEvaluator.evaluate_content
        (ContentEvaluator.ContentInput.mk i.title i.content i.tags i.h2Count i.h3Count
          i.paragraphs i.listCount i.emphasisCount i.text m)).completeness_score =
      (ContentEvaluator.evaluate_content i).completeness_score ∧
    (ContentEvaluator.evaluate_content i).overall_score =
      (75 + (ContentEvaluator.evaluate_content i).structure_score +
       (ContentEvaluator.evaluate_content i).seo_score +
       (ContentEvaluator.evaluate_content i).completeness_score) / 4 := by
  have h75n : ContentEvaluator.readabilityNat none = 75 := rfl
  refine ⟨?_, ?_, rfl, rfl, rfl, ?_⟩
  · rw [ContentEvaluator.content_readability_def, hn,
      ContentEvaluator.readability_score_eq, h75n]
    have h100 := round2_natCast 75
    norm_num at h100 ⊢
    exact h100
  · rw [ContentEvaluator.content_issues_def, hn]
    simp [ContentEvaluator.evaluate_readability_issues]
  · rw [ContentEvaluator.content_overall_def, ContentEvaluator.content_structure_def,
      ContentEvaluator.content_seo_def, ContentEvaluator.content_completeness_def, hn,
      ContentEvaluator.readability_score_eq, h75n, ContentEvaluator.structure_score_eq,
      ContentEvaluator.seo_score_eq, ContentEvaluator.completeness_score_eq,
      round2_natCast, round2_natCast, round2_natCast]
    have h025 : (0.25 : ℚ) = 1 / 4 := by norm_num
    rw [h025, round2_eq_self _
      (25 * ((75 : ℤ) + ((100 - ContentEvaluator.structurePen i : ℕ) : ℤ) +
             ((100 - ContentEvaluator.seoPen i : ℕ) : ℤ) +
             ((100 - ContentEvaluator.completenessPen i : ℕ) : ℤ)))
      (by push_cast; ring)]
    push_cast
    ring

/-- C8 witness: the theorem applied to `noMetricsInput`. -/
theorem readability_fallback_witness :
    noMetricsInput.readability = none ∧
    (ContentEvaluator.evaluate_content noMetricsInput).readability_score = 75 :=
  ⟨rfl, (readability_fallback noMetricsInput
    (some (ContentEvaluator.Readability.mk 55 8 10)) rfl).1⟩

/-- C7: with no errors, all tasks completed and duration variance at most
100, the reliability score is exactly 100, both reliability strengths are
recorded, and no reliability weakness is recorded. -/
theorem reliability_perfect (agents : List AgentEvaluator.AgentMetrics)
    (tasks : List AgentEvaluator.TaskMetrics) (d : ℚ)
    (h1 : AgentEvaluator.totalErrors agents = 0)
    (h2 : ∀ t ∈ tasks, t.status = "completed")
    (h3 : AgentEvaluator.durationVariance (AgentEvaluator.durationsPos tasks) ≤ 100) :
    (AgentEvaluator.evaluate_agent_performance agents tasks d).reliability_score = 100 ∧
    AgentEvaluator.Strength.zeroErrors ∈
      (AgentEvaluator.evaluate_agent_performance agents tasks d).strengths ∧
    AgentEvaluator.Strength.allCompleted ∈
      (AgentEvaluator.evaluate_agent_performance agents tasks d).strengths ∧
    AgentEvaluator.evaluate_reliability_weaknesses agents tasks = [] := by
  have hft : AgentEvaluator.failedTasks tasks = [] := by
    rw [AgentEvaluator.failedTasks]
    apply List.filter_eq_nil.mpr
    intro t ht
    simp [h2 t ht]
  refine ⟨?_, ?_, ?_, ?_⟩
  · have hpen : AgentEvaluator.reliabilityPen agents tasks = 0 := by
      simp [AgentEvaluator.reliabilityPen, h1, hft, not_lt.mpr h3]
    rw [AgentEvaluator.agent_reliability_def, AgentEvaluator.reliability_score_eq, hpen]
    have h100 := round2_natCast 100
    norm_num at h100 ⊢
    exact h100
  · rw [AgentEvaluator.agent_strengths_def]
    simp [AgentEvaluator.evaluate_reliability_strengths, h1, hft]
  · rw [AgentEvaluator.agent_strengths_def]
    simp [AgentEvaluator.evaluate_reliability_strengths, h1, hft]
  · simp [AgentEvaluator.evaluate_reliability_weaknesses, h1, hft, not_lt.mpr h3]

/-- C7 witness: the theorem applied to the clean run at duration 25s. -/
theorem reliability_perfect_witness :
    AgentEvaluator.totalErrors cleanAgents = 0 ∧
    (∀ t ∈ cleanTasks, t.status = "completed") ∧
    AgentEvaluator.durationVariance (AgentEvaluator.durationsPos cleanTasks) ≤ 100 ∧
    (AgentEvaluator.evaluate_agent_performance cleanAgents cleanTasks 25).reliability_score =
      100 := by
  have hds : AgentEvaluator.durationsPos cleanTasks = [5] := by decide
  have hvar : AgentEvaluator.durationVariance (AgentEvaluator.durationsPos cleanTasks) ≤ 100 := by
    rw [hds, AgentEvaluator.durationVariance]
    norm_num
  exact ⟨by decide, by decide, hvar,
    (reliability_perfect cleanAgents cleanTasks 25 (by decide) (by decide) hvar).1⟩

/-- C5 counterexample: an input with exactly 2 H2 headings and a 400-word
plain text on which `evaluate_content` returns overall score 71.25 and
grade C, refuting the claimed `overall_score < 70` and grade in D/F. -/
theorem scenarioA_counterexample :
    scenarioAInput.h2Count = 2 ∧
    ContentEvaluator.wordCount scenarioAInput = 400 ∧
    ¬ (ContentEvaluator.evaluate_content scenarioAInput).overall_score < 70 ∧
    (ContentEvaluator.evaluate_content scenarioAInput).grade = "C" := by
  have e1 : ContentEvaluator.readabilityNat scenarioAInput.readability = 75 := by decide
  have e2 : ContentEvaluator.structurePen scenarioAInput = 25 := by decide
  have e3 : ContentEvaluator.seoPen scenarioAInput = 25 := by decide
  have hd : ContentEvaluator.depthPen scenarioAInput = 0 := by
    rw [ContentEvaluator.depthPen]
    norm_num [scenarioAInput]
  have e4 : ContentEvaluator.completenessPen scenarioAInput = 40 := by
    rw [ContentEvaluator.completenessPen, hd,
      show ContentEvaluator.introPen scenarioAInput = 0 from by decide,
      show ContentEvaluator.conclusionPen scenarioAInput = 0 from by decide,
      show ContentEvaluator.placeholderPen scenarioAInput = 0 from by decide,
      show ContentEvaluator.shortTextPen scenarioAInput = 40 from by decide]
  refine ⟨rfl, by decide, ?_, ?_⟩
  · rw [content_overall_nat, e1, e2, e3, e4]
    norm_num
  · rw [ContentEvaluator.content_grade_def, ContentEvaluator.readability_score_eq,
      ContentEvaluator.structure_score_eq, ContentEvaluator.seo_score_eq,
      ContentEvaluator.completeness_score_eq, e1, e2, e3, e4]
    norm_num [ContentEvaluator.score_to_grade]

/-- C5 amended: with exactly 2 H2 headings and 400 words the structure
issue about fewer than 3 H2 sections and the SEO word-count issue are
recorded, the overall score is at most 77.5, and the grade is C, D or F. -/
theorem scenarioA_amended (i : ContentEvaluator.ContentInput)
    (hh2 : i.h2Count = 2) (hwc : ContentEvaluator.wordCount i = 400) :
    ContentEvaluator.Issue.fewH2 2 ∈ (ContentEvaluator.evaluate_content i).issues ∧
    ContentEvaluator.Issue.contentTooShort 400 ∈
      (ContentEvaluator.evaluate_content i).issues ∧
    (ContentEvaluator.evaluate_content i).overall_score ≤ 155 / 2 ∧
    ((ContentEvaluator.evaluate_content i).grade = "C" ∨
     (ContentEvaluator.evaluate_content i).grade = "D" ∨
     (ContentEvaluator.evaluate_content i).grade = "F") := by
  have hb1 : ContentEvaluator.readabilityNat i.readability ≤ 100 :=
    ContentEvaluator.readabilityNat_le _
  have hb2 : 25 ≤ ContentEvaluator.structurePen i := by
    rw [ContentEvaluator.structurePen, ContentEvaluator.h2Pen, hh2]
    norm_num
    omega
  have hb3 : 25 ≤ ContentEvaluator.seoPen i := by
    have : ContentEvaluator.wcPen i = 25 := by
      rw [ContentEvaluator.wcPen, hwc]
      norm_num
    rw [ContentEvaluator.seoPen]
    omega
  have hb4 : 40 ≤ ContentEvaluator.completenessPen i := by
    have : ContentEvaluator.shortTextPen i = 40 := by
      rw [ContentEvaluator.shortTextPen, hwc]
      norm_num
    rw [ContentEvaluator.completenessPen]
    omega
  have hsum : ContentEvaluator.readabilityNat i.readability +
      (100 - ContentEvaluator.structurePen i) + (100 - ContentEvaluator.seoPen i) +
      (100 - ContentEvaluator.completenessPen i) ≤ 310 := by omega
  have hsumq : ((ContentEvaluator.readabilityNat i.readability +
      (100 - ContentEvaluator.structurePen i) + (100 - ContentEvaluator.seoPen i) +
      (100 - ContentEvaluator.completenessPen i) : ℕ) : ℚ) ≤ 310 := by exact_mod_cast hsum
  have hgradearg : ContentEvaluator.evaluate_readability_score i.readability * 0.25 +
      ContentEvaluator.evaluate_structure_score i * 0.25 +
      ContentEvaluator.evaluate_seo_score i * 0.25 +
      ContentEvaluator.evaluate_completeness_score i * 0.25 =
      ((ContentEvaluator.readabilityNat i.readability +
        (100 - ContentEvaluator.structurePen i) + (100 - ContentEvaluator.seoPen i) +
        (100 - ContentEvaluator.completenessPen i) : ℕ) : ℚ) / 4 := by
    rw [ContentEvaluator.readability_score_eq, ContentEvaluator.structure_score_eq,
      ContentEvaluator.seo_score_eq, ContentEvaluator.completeness_score_eq]
    push_cast
    ring
  refine ⟨?_, ?_, ?_, ?_⟩
  · rw [ContentEvaluator.content_issues_def]
    simp [ContentEvaluator.evaluate_structure_issues, hh2]
  · rw [ContentEvaluator.content_issues_def]
    simp [ContentEvaluator.evaluate_seo_issues, hwc]
  · rw [content_overall_nat]
    linarith
  · rw [ContentEvaluator.content_grade_def, hgradearg, ContentEvaluator.score_to_grade]
    rw [if_neg (by linarith), if_neg (by linarith)]
    split_ifs <;> simp

/-- C5 witness: the amended theorem applied to the scenario input. -/
theorem scenarioA_amended_witness :
    scenarioAInput.h2Count = 2 ∧ ContentEvaluator.wordCount scenarioAInput = 400 ∧
    ContentEvaluator.Issue.fewH2 2 ∈ (ContentEvaluator.evaluate_content scenarioAInput).issues :=
  ⟨rfl, by decide, (scenarioA_amended scenarioAInput rfl (by decide)).1⟩
